import Mathlib

/-!
Shallow embedding of the BACnet/IP add-on core
(`src/bacnet/rootfs/usr/bin/BACnetIOHandler.py`, class `BACnetIOHandler`).

Python dictionaries are modelled as association lists with first-match
lookup; insertion of a fresh key appends (Python dicts preserve insertion
order), assignment to an existing key replaces in place.  The Python `set`
used for `available_ids` is modelled as a membership-based list: `add` is a
no-op on members, and `pop` — which in Python removes an arbitrary element
of the unordered set — is modelled as removing the minimum (what CPython's
hash table yields for small non-negative integers).  Claims that are
sensitive to the pop order are flagged where they are settled.
-/

namespace BACnet

/-- A BACnet object identifier: (object-type tag, instance number),
e.g. `("device", 100)` or `("analogInput", 3)`. -/
abbrev ObjId := String × Nat

/-- A property identifier, e.g. `"presentValue"`. -/
abbrev PropId := String

/-- An opaque transport address (`pduSource` / `pduDestination`). -/
abbrev Addr := Nat

/-- The target a raw payload is cast to by `cast_out`:  `Unsigned` for
array-index 0, a named scalar/element type, or a whole array type. -/
inductive CastTarget where
  | unsignedT
  | namedT (name : String)
  | arrayT (sub : String)
deriving DecidableEq, Repr

/-- A decoded property value: the raw payload together with the datatype
it was cast out with (the decode paths differ only in the choice of
target, which this representation keeps observable). -/
inductive Value where
  | cast (raw : Nat) (target : CastTarget)
deriving DecidableEq, Repr

/-- First-match lookup in an association list (Python `dict[k]` /
`dict.get`). -/
def lookupAssoc {K V : Type} [DecidableEq K] : List (K × V) → K → Option V
  | [], _ => none
  | (k, v) :: rest, key => if k = key then some v else lookupAssoc rest key

/-- Python `dict[k] = v`: replace in place if the key is present, append
otherwise. -/
def setAssoc {K V : Type} [DecidableEq K] : List (K × V) → K → V → List (K × V)
  | [], key, v => [(key, v)]
  | (k, w) :: rest, key, v =>
      if k = key then (key, v) :: rest else (k, w) :: setAssoc rest key v

/-- A property map: Python dict from property identifier to decoded value. -/
abbrev PropMap := List (PropId × Value)

/-- Python `old.update(upd)`: assign each item of `upd` in order — keys of
`old` keep their position with values overwritten where present, keys only
in `upd` are appended in `upd` order. -/
def dictUpdate (old upd : PropMap) : PropMap :=
  upd.foldl (fun acc kv => setAssoc acc kv.1 kv.2) old

/- ==================================================================
   ID Allocator (`id_to_object`, `object_to_id`, `available_ids`,
   `next_id`, methods `assign_id` / `unassign_id`)
   ================================================================== -/

/-- Python set `add`: no-op when the element is present. -/
def setAdd (s : List Nat) (i : Nat) : List Nat := if i ∈ s then s else i :: s

/-- Minimum of a list, `none` when empty. -/
def listMin : List Nat → Option Nat
  | [] => none
  | x :: xs =>
      match listMin xs with
      | none => some x
      | some m => some (min x m)

/-- Python `set.pop()`: remove and return an arbitrary element of the
unordered set (modelled as the minimum, CPython's behaviour for small
non-negative integers); `none` on the empty set. -/
def setPop (s : List Nat) : Option (Nat × List Nat) :=
  match listMin s with
  | none => none
  | some m => some (m, s.filter (fun x => decide (x ≠ m)))

/-- State of the subscriber-process-id allocator, generic in the key type
(the handler keys it on `(objectID, addr_to_dev_id address)`). -/
structure AllocState (K : Type) where
  id_to_object : List (Nat × K)
  object_to_id : List (K × Nat)
  available_ids : List Nat
  next_id : Nat
deriving DecidableEq, Repr

/-- Class-attribute initial state: empty tables, `next_id = 1`. -/
def AllocState.init {K : Type} : AllocState K :=
  { id_to_object := [], object_to_id := [], available_ids := [], next_id := 1 }

/-- `assign_id(obj)`: return the existing id when `obj` is registered;
otherwise pop an available id when the pool is non-empty, else take
`next_id` and increment it. -/
def assign_id {K : Type} [DecidableEq K] (st : AllocState K) (obj : K) :
    Nat × AllocState K :=
  match lookupAssoc st.object_to_id obj with
  | some i => (i, st)
  | none =>
    match setPop st.available_ids with
    | some (i, rest) =>
        (i, { st with
                id_to_object := (i, obj) :: st.id_to_object,
                object_to_id := (obj, i) :: st.object_to_id,
                available_ids := rest })
    | none =>
        (st.next_id,
         { st with
             id_to_object := (st.next_id, obj) :: st.id_to_object,
             object_to_id := (obj, st.next_id) :: st.object_to_id,
             next_id := st.next_id + 1 })

/-- `unassign_id(obj)`: no-op when `obj` is unregistered; otherwise delete
both directions of the mapping and return the id to the pool. -/
def unassign_id {K : Type} [DecidableEq K] (st : AllocState K) (obj : K) :
    AllocState K :=
  match lookupAssoc st.object_to_id obj with
  | none => st
  | some i =>
      { st with
          id_to_object := st.id_to_object.filter (fun kv => decide (kv.1 ≠ i)),
          object_to_id := st.object_to_id.filter (fun kv => decide (kv.1 ≠ obj)),
          available_ids := setAdd st.available_ids i }

/-- One externally-visible allocator call. -/
inductive AllocOp (K : Type) where
  | assign (k : K)
  | unassign (k : K)

/-- One step of a run: perform the call and append any returned id. -/
def allocStepIds {K : Type} [DecidableEq K]
    (p : AllocState K × List Nat) (op : AllocOp K) : AllocState K × List Nat :=
  match op with
  | .assign k =>
      let r := assign_id p.1 k
      (r.2, p.2 ++ [r.1])
  | .unassign k => (unassign_id p.1 k, p.2)

/-- Run a sequence of allocator calls from the initial state, collecting
every id returned by `assign_id`. -/
def allocRunIds {K : Type} [DecidableEq K] (ops : List (AllocOp K)) :
    AllocState K × List Nat :=
  ops.foldl allocStepIds (AllocState.init, [])

/-- Boolean check: no two entries of the live `object_to_id` table carry
the same id unless they are the same key. -/
def allocNoSharedIds {K : Type} [DecidableEq K] (st : AllocState K) : Bool :=
  st.object_to_id.all (fun p =>
    st.object_to_id.all (fun q =>
      !(decide (p.2 = q.2)) || decide (p.1 = q.1)))

/-- Boolean check: every id in the list is at least 1. -/
def allocIdsPos (ids : List Nat) : Bool :=
  ids.all (fun i => decide (1 ≤ i))

/- ==================================================================
   Device Registry (`BACnetDeviceDict`, `update_object`,
   `addr_to_dev_id`) and requests
   ================================================================== -/

/-- One entry of `BACnetDeviceDict`: the fixed string keys
`"address"` / `"deviceIdentifier"` of the Python device dict become the
first two fields, the object-id-keyed entries become `objects`. -/
structure Device where
  address : Addr
  deviceIdentifier : ObjId
  objects : List (ObjId × PropMap)
deriving DecidableEq, Repr

/-- `BACnetDeviceDict`: device identifier → device entry. -/
abbrev DeviceDict := List (ObjId × Device)

/-- The allocator key used by the handler:
`(objectID, addr_to_dev_id(address))` — the device lookup may fail, in
which case Python silently pairs the object with `None`. -/
abbrev SubKey := ObjId × Option ObjId

/-- The mutable state of a `BACnetIOHandler` instance that the claims
touch: the device dictionary, the id-allocator tables and the
`updateEvent` flag (`threading.Event`, observed as set / not set). -/
structure HandlerState where
  devices : DeviceDict
  alloc : AllocState SubKey
  updateEvent : Bool
deriving DecidableEq, Repr

/-- `addr_to_dev_id(address)`: linear scan of `BACnetDeviceDict` for the
first device whose stored address matches; Python falls off the loop and
returns `None` when there is none. -/
def addr_to_dev_id (st : HandlerState) (address : Addr) : Option ObjId :=
  (st.devices.find? (fun kv => decide (kv.2.address = address))).map (·.1)

/-- `update_object(objectID, deviceID, new_val)`: scan the device dict for
`deviceID`; on a match set `updateEvent` and
`try: dict[deviceID][objectID].update(new_val)`
`except: dict[deviceID][objectID] = new_val` —
i.e. merge into the object's map when the object exists, install
`new_val` as the map when the inner indexing raises `KeyError`.  When no
device matches, nothing at all happens. -/
def update_object (st : HandlerState) (objectID deviceID : ObjId)
    (new_val : PropMap) : HandlerState :=
  match lookupAssoc st.devices deviceID with
  | none => st
  | some dev =>
      let objects :=
        match lookupAssoc dev.objects objectID with
        | some m => setAssoc dev.objects objectID (dictUpdate m new_val)
        | none => dev.objects ++ [(objectID, new_val)]
      { st with
          devices := setAssoc st.devices deviceID { dev with objects := objects },
          updateEvent := true }

/-- A request handed to `request_io` (the external transport). -/
inductive Request where
  | readMany (specs : List (ObjId × List PropId)) (address : Addr)
  | readOne (objectID : ObjId) (propertyID : PropId) (address : Addr)
  | subscribeCOV (spid : Nat) (objectID : ObjId) (confirmed : Bool)
      (lifetime : Option Nat) (address : Addr)
deriving DecidableEq, Repr

/-- `ReadPropertyMultiple(objectList, propertyList, address)`: build one
`ReadAccessSpecification` per object, all sharing `propertyList`, and
send the resulting `ReadPropertyMultipleRequest`. -/
def ReadPropertyMultiple (objectList : List ObjId) (propertyList : List PropId)
    (address : Addr) : Request :=
  .readMany (objectList.map (fun o => (o, propertyList))) address

/-- The nine device properties requested by `do_IAmRequest` and by the
single-device error retry in `on_ReadMultipleResult`. -/
def devicePropertyList : List PropId :=
  ["objectIdentifier", "objectType", "objectName", "systemStatus",
   "vendorName", "vendorIdentifier", "objectList", "description",
   "modelName"]

/-- The reduced, widely-supported property list used by the other error
retry in `on_ReadMultipleResult`. -/
def reducedPropertyList : List PropId :=
  ["objectIdentifier", "objectName", "description", "presentValue",
   "statusFlags", "outOfService", "units", "reliability"]

/-- `do_IAmRequest(apdu)`: when `apdu.iAmDeviceIdentifier` is not yet a
key of `BACnetDeviceDict`, store the new device entry (address and
identifier, no objects) and issue one `ReadPropertyMultiple` for the
device object with the nine-entry device property list, addressed to the
announcement's source; otherwise do nothing. -/
def do_IAmRequest (st : HandlerState) (pduSource : Addr)
    (iAmDeviceIdentifier : ObjId) : HandlerState × List Request :=
  match lookupAssoc st.devices iAmDeviceIdentifier with
  | some _ => (st, [])
  | none =>
      let dev : Device :=
        { address := pduSource, deviceIdentifier := iAmDeviceIdentifier,
          objects := [] }
      ({ st with devices := st.devices ++ [(iAmDeviceIdentifier, dev)] },
       [ReadPropertyMultiple [iAmDeviceIdentifier] devicePropertyList pduSource])

/-- The `if iocb.ioError:` branch of `on_ReadMultipleResult`, as a
function of the failed request's `listOfReadAccessSpecs` and the error's
source address.  A single-device request is retried with the full device
property list; any other non-empty request is retried over the same
object set with the reduced property list.  An empty spec list makes
`listOfReadAccessSpecs[0]` raise `IndexError` out of the callback, so no
request is issued (`none`). -/
def on_ReadMultipleResult_error (specs : List (ObjId × List PropId))
    (errorSource : Addr) : Option Request :=
  match specs with
  | [] => none
  | first :: rest =>
      if first.1.1 = "device" ∧ rest = [] then
        some (ReadPropertyMultiple [first.1] devicePropertyList errorSource)
      else
        some (ReadPropertyMultiple ((first :: rest).map (·.1))
              reducedPropertyList errorSource)

/-- `COVUnsubscribe(objectID, confirmationType, address)`.  The Python
body first constructs a `SubscribeCOVRequest` (calling `assign_id` on
`(objectID, addr_to_dev_id(address))` for its subscriber process id) and
then calls `self.unsubscribe_id(objectID)`.  No method `unsubscribe_id`
is defined on `BACnetIOHandler`, on its `bacpypes` base classes, or
anywhere else in the repository, so that attribute lookup raises
`AttributeError`; the surrounding bare `except Exception: pass` swallows
it before `request.lifetime = int(1)` is executed and before the request
reaches `request_io`.  The observable effect is therefore only the
allocator mutation — no request is dispatched. -/
def COVUnsubscribe (st : HandlerState) (objectID : ObjId)
    (confirmationType : Bool) (address : Addr) : HandlerState × List Request :=
  let r := assign_id st.alloc (objectID, addr_to_dev_id st address)
  ({ st with alloc := r.2 }, [])

/- ==================================================================
   Decode paths: `return_value_read_multiple`, `return_value_read`,
   `do_ConfirmedCOVNotificationRequest`,
   `do_UnconfirmedCOVNotificationRequest`
   ================================================================== -/

/-- The result of the collaborator's `get_datatype(objType, propId)`
lookup: a scalar class or an `Array` subclass with its element type. -/
inductive Dtype where
  | atomic (name : String)
  | array (subtype : String)
deriving DecidableEq, Repr

/-- The external `bacpypes.object.get_datatype` table, taken as a
parameter: `none` models an unknown datatype. -/
abbrev DatatypeEnv := String → PropId → Option Dtype

/-- `cast_out`: the collaborator decodes a raw payload at a target type;
the model records both. -/
def cast_out (raw : Nat) (t : CastTarget) : Value := .cast raw t

/-- The shared array-aware decode step:
`if issubclass(datatype, Array) and (idx is not None):` cast index 0 as
`Unsigned` and other indices as `datatype.subtype`; otherwise
`cast_out(datatype)`. -/
def decodeWith (dt : Dtype) (idx : Option Nat) (raw : Nat) : Value :=
  match dt with
  | .array sub =>
      match idx with
      | some 0 => cast_out raw .unsignedT
      | some _ => cast_out raw (.namedT sub)
      | none => cast_out raw (.arrayT sub)
  | .atomic n => cast_out raw (.namedT n)

/-- One element of a COV notification's `listOfValues`. -/
structure PropertyValue where
  propertyIdentifier : PropId
  propertyArrayIndex : Option Nat
  value : Nat
deriving DecidableEq, Repr

/-- The decode loop shared by both COV notification handlers: for each
list value look up the datatype and cast the payload out.  There is no
`None` check here, so an unknown datatype reaches
`issubclass(datatype, Array)` as `issubclass(None, Array)`, which raises
`TypeError` out of the handler (modelled as `Except.error`). -/
def covDecodeValues (gd : DatatypeEnv) (objType : String) :
    List PropertyValue → PropMap → Except String PropMap
  | [], acc => .ok acc
  | lv :: rest, acc =>
      match gd objType lv.propertyIdentifier with
      | none => .error "TypeError: issubclass() arg 1 must be a class"
      | some dt =>
          covDecodeValues gd objType rest
            (dictUpdate acc
              [(lv.propertyIdentifier,
                decodeWith dt lv.propertyArrayIndex lv.value)])

/-- An inbound COV notification (already parsed by the collaborator). -/
structure COVNotification where
  monitoredObjectIdentifier : ObjId
  initiatingDeviceIdentifier : ObjId
  listOfValues : List PropertyValue
deriving DecidableEq, Repr

/-- The reply a confirmed COV handler returns through `self.response`. -/
inductive Response where
  | simpleAck
  | reject (reason : Nat)
  | abort (reason : Nat)
deriving DecidableEq, Repr

/-- The module-level disposition flag `rsvp = (True, None, None)`:
always acknowledge; never mutated in this module. -/
def rsvp : Bool × Option Nat × Option Nat := (true, none, none)

/-- The response selected by the `if rsvp[0] / elif rsvp[1] / elif
rsvp[2]` chain; were all three components falsy, `response` would be
unbound and `self.response(response)` would raise `NameError` (`none`). -/
def rsvpResponse : Option Response :=
  if rsvp.1 then some .simpleAck
  else
    match rsvp.2.1 with
    | some r => some (.reject r)
    | none =>
        match rsvp.2.2 with
        | some a => some (.abort a)
        | none => none

/-- `do_ConfirmedCOVNotificationRequest(apdu)`: decode `listOfValues`
(raising on an unknown datatype), merge the resulting property dict into
the registry under the monitored object / initiating device, and answer
according to `rsvp`. -/
def do_ConfirmedCOVNotificationRequest (gd : DatatypeEnv) (st : HandlerState)
    (apdu : COVNotification) :
    Except String (HandlerState × Option Response) :=
  match covDecodeValues gd apdu.monitoredObjectIdentifier.1
      apdu.listOfValues [] with
  | .error e => .error e
  | .ok property_dict =>
      .ok (update_object st apdu.monitoredObjectIdentifier
             apdu.initiatingDeviceIdentifier property_dict,
           rsvpResponse)

/-- `do_UnconfirmedCOVNotificationRequest(apdu)`: identical decode and
merge, with no reply. -/
def do_UnconfirmedCOVNotificationRequest (gd : DatatypeEnv)
    (st : HandlerState) (apdu : COVNotification) :
    Except String HandlerState :=
  match covDecodeValues gd apdu.monitoredObjectIdentifier.1
      apdu.listOfValues [] with
  | .error e => .error e
  | .ok property_dict =>
      .ok (update_object st apdu.monitoredObjectIdentifier
             apdu.initiatingDeviceIdentifier property_dict)

/-- The `readResult` of one property in a `ReadPropertyMultipleACK`:
either an access error or a raw value. -/
structure ReadResult where
  propertyAccessError : Option Nat
  propertyValue : Nat
deriving DecidableEq, Repr

/-- One element of a read-access result's `listOfResults`. -/
structure ReadAccessResultElement where
  propertyIdentifier : PropId
  propertyArrayIndex : Option Nat
  readResult : ReadResult
deriving DecidableEq, Repr

/-- One element of `listOfReadAccessResults`. -/
structure ReadAccessResult where
  objectIdentifier : ObjId
  listOfResults : List ReadAccessResultElement
deriving DecidableEq, Repr

/-- The inner property loop of `return_value_read_multiple`: an unknown
datatype is skipped by `continue`; a property with an access error has
`value = '-'` computed but — the storing statements sit in the `else`
branch — nothing stored; otherwise the decoded value is stored.  The
`Except` mirrors where the Python loop could raise: nowhere. -/
def readMultipleDecodeResults (gd : DatatypeEnv) (objType : String) :
    List ReadAccessResultElement → PropMap → Except String PropMap
  | [], acc => .ok acc
  | e :: rest, acc =>
      match gd objType e.propertyIdentifier with
      | none => readMultipleDecodeResults gd objType rest acc
      | some dt =>
          match e.readResult.propertyAccessError with
          | some _ => readMultipleDecodeResults gd objType rest acc
          | none =>
              readMultipleDecodeResults gd objType rest
                (dictUpdate acc
                  [(e.propertyIdentifier,
                    decodeWith dt e.propertyArrayIndex
                      e.readResult.propertyValue)])

/-- `return_value_read_multiple(response)`: build the object dict, one
property dict per read-access result. -/
def return_value_read_multiple (gd : DatatypeEnv) :
    List ReadAccessResult → List (ObjId × PropMap) →
    Except String (List (ObjId × PropMap))
  | [], acc => .ok acc
  | o :: rest, acc =>
      match readMultipleDecodeResults gd o.objectIdentifier.1
          o.listOfResults [] with
      | .error e => .error e
      | .ok pd =>
          return_value_read_multiple gd rest
            (setAssoc acc o.objectIdentifier pd)

/-- A `ReadPropertyACK` as consumed by `return_value_read`. -/
structure ReadPropertyACK where
  objectIdentifier : ObjId
  propertyIdentifier : PropId
  propertyArrayIndex : Option Nat
  propertyValue : Nat
deriving DecidableEq, Repr

/-- `return_value_read(response)` from `on_ReadResult`: here an unknown
datatype is not skipped but raises `Exception('Invalid datatype')`,
which the caller's `try ... except Exception: pass` later swallows. -/
def return_value_read (gd : DatatypeEnv) (r : ReadPropertyACK) :
    Except String PropMap :=
  match gd r.objectIdentifier.1 r.propertyIdentifier with
  | none => .error "Invalid datatype"
  | some dt =>
      .ok [(r.propertyIdentifier,
            decodeWith dt r.propertyArrayIndex r.propertyValue)]

/- ==================================================================
   Derived observations and proof-side definitions
   ================================================================== -/

/-- Whether an `Except` computation completed without raising. -/
def exceptOk {ε α : Type} : Except ε α → Bool
  | .ok _ => true
  | .error _ => false

/-- The property value stored for `p` under device `deviceID`, object
`objectID` — `none` when the device, the object or the property is
absent. -/
def propAt (st : HandlerState) (deviceID objectID : ObjId) (p : PropId) :
    Option Value :=
  match lookupAssoc st.devices deviceID with
  | none => none
  | some dev =>
      match lookupAssoc dev.objects objectID with
      | none => none
      | some m => lookupAssoc m p

/-- The allocator invariant: `next_id` is positive, every assigned or
pooled id lies in `[1, next_id)`, pooled ids are not assigned, and no two
distinct live keys share an id. -/
def AllocInv {K : Type} (st : AllocState K) : Prop :=
  1 ≤ st.next_id
  ∧ (∀ p ∈ st.object_to_id, 1 ≤ p.2 ∧ p.2 < st.next_id)
  ∧ (∀ i ∈ st.available_ids, 1 ≤ i ∧ i < st.next_id)
  ∧ (∀ i ∈ st.available_ids, ∀ p ∈ st.object_to_id, p.2 ≠ i)
  ∧ (∀ p ∈ st.object_to_id, ∀ q ∈ st.object_to_id, p.2 = q.2 → p.1 = q.1)

/- Concrete fixtures used by witness theorems. -/

/-- A handler with no devices discovered yet. -/
def emptyHandlerState : HandlerState :=
  { devices := [], alloc := AllocState.init, updateEvent := false }

/-- A handler that already knows device 5 at address 3. -/
def knownDeviceState : HandlerState :=
  { devices :=
      [(("device", 5),
        { address := 3, deviceIdentifier := ("device", 5), objects := [] })],
    alloc := AllocState.init, updateEvent := false }

/-- A handler knowing device 1 at address 4 with one analog input whose
map holds `statusFlags`. -/
def oneObjectState : HandlerState :=
  { devices :=
      [(("device", 1),
        { address := 4, deviceIdentifier := ("device", 1),
          objects := [(("analogInput", 2),
                       [("statusFlags", Value.cast 5 (.namedT "StatusFlags"))])] })],
    alloc := AllocState.init, updateEvent := false }

/-- A datatype table that knows nothing. -/
def gdUnknown : DatatypeEnv := fun _ _ => none

/-- A datatype table that says every property is a `Real` scalar. -/
def gdAllReal : DatatypeEnv := fun _ _ => some (.atomic "Real")

/-- A COV notification carrying one `presentValue` sample for analog
input 1 of device 2. -/
def sampleNotification : COVNotification :=
  { monitoredObjectIdentifier := ("analogInput", 1),
    initiatingDeviceIdentifier := ("device", 2),
    listOfValues :=
      [{ propertyIdentifier := "presentValue", propertyArrayIndex := none,
         value := 0 }] }

/-- Allocator calls that reclaim id 1 and then id 2, leaving both in the
pool with 2 the most recently reclaimed. -/
def reclaimTwiceOps : List (AllocOp Nat) :=
  [.assign 10, .assign 20, .unassign 10, .unassign 20]

/- ==================================================================
   Association-list and set lemmas
   ================================================================== -/

theorem lookupAssoc_mem {K V : Type} [DecidableEq K] :
    ∀ {l : List (K × V)} {k : K} {v : V},
      lookupAssoc l k = some v → (k, v) ∈ l
  | [], _, _, h => by simp [lookupAssoc] at h
  | (a, b) :: tl, k, v, h => by
      by_cases hk : a = k
      · subst hk
        simp [lookupAssoc] at h
        simp [h]
      · simp only [lookupAssoc, if_neg hk] at h
        exact List.mem_cons_of_mem _ (lookupAssoc_mem h)

theorem lookupAssoc_none_not_mem {K V : Type} [DecidableEq K] :
    ∀ {l : List (K × V)} {k : K},
      lookupAssoc l k = none → ∀ v, (k, v) ∉ l
  | [], _, _, v => by simp
  | (a, b) :: tl, k, h, v => by
      by_cases hk : a = k
      · subst hk; simp [lookupAssoc] at h
      · simp only [lookupAssoc, if_neg hk] at h
        intro hmem
        rcases List.mem_cons.1 hmem with hh | ht
        · exact hk (congrArg Prod.fst hh).symm
        · exact lookupAssoc_none_not_mem h v ht

theorem lookupAssoc_setAssoc_self {K V : Type} [DecidableEq K] :
    ∀ (l : List (K × V)) (k : K) (v : V),
      lookupAssoc (setAssoc l k v) k = some v
  | [], k, v => by simp [setAssoc, lookupAssoc]
  | (a, b) :: tl, k, v => by
      by_cases hk : a = k
      · simp [setAssoc, if_pos hk, lookupAssoc]
      · simp only [setAssoc, if_neg hk, lookupAssoc]
        exact lookupAssoc_setAssoc_self tl k v

theorem lookupAssoc_setAssoc_ne {K V : Type} [DecidableEq K] {k2 k : K}
    (hne : k2 ≠ k) :
    ∀ (l : List (K × V)) (v : V),
      lookupAssoc (setAssoc l k v) k2 = lookupAssoc l k2
  | [], v => by
      simp only [setAssoc, lookupAssoc]
      exact if_neg (fun h => hne h.symm)
  | (a, b) :: tl, v => by
      by_cases hk : a = k
      · subst hk
        simp only [setAssoc, if_pos rfl, lookupAssoc]
        rw [if_neg (fun h => hne h.symm), if_neg (fun h => hne h.symm)]
      · simp only [setAssoc, if_neg hk, lookupAssoc]
        by_cases ha : a = k2
        · rw [if_pos ha, if_pos ha]
        · rw [if_neg ha, if_neg ha]
          exact lookupAssoc_setAssoc_ne hne tl v

theorem setAssoc_of_none {K V : Type} [DecidableEq K] :
    ∀ {l : List (K × V)} {k : K}, lookupAssoc l k = none →
      ∀ (v : V), setAssoc l k v = l ++ [(k, v)]
  | [], _, _, v => by simp [setAssoc]
  | (a, b) :: tl, k, h, v => by
      by_cases hk : a = k
      · subst hk; simp [lookupAssoc] at h
      · simp only [lookupAssoc, if_neg hk] at h
        simp only [setAssoc, if_neg hk, List.cons_append]
        rw [setAssoc_of_none h]

theorem lookupAssoc_append_none {K V : Type} [DecidableEq K] :
    ∀ {l : List (K × V)} {k : K}, lookupAssoc l k = none →
      ∀ (m : List (K × V)), lookupAssoc (l ++ m) k = lookupAssoc m k
  | [], _, _, m => by simp
  | (a, b) :: tl, k, h, m => by
      by_cases hk : a = k
      · subst hk; simp [lookupAssoc] at h
      · simp only [lookupAssoc, if_neg hk] at h
        simp only [List.cons_append, lookupAssoc, if_neg hk]
        exact lookupAssoc_append_none h m

theorem listMin_mem : ∀ {s : List Nat} {m : Nat}, listMin s = some m → m ∈ s
  | [], _, h => by simp [listMin] at h
  | x :: xs, m, h => by
      cases hxs : listMin xs with
      | none =>
          simp only [listMin, hxs] at h
          simp [← Option.some.inj h]
      | some m2 =>
          simp only [listMin, hxs] at h
          have hm : m = min x m2 := (Option.some.inj h).symm
          rcases Nat.le_total x m2 with hle | hle
          · have : m = x := by rw [hm]; exact Nat.min_eq_left hle
            simp [this]
          · have : m = m2 := by rw [hm]; exact Nat.min_eq_right hle
            exact List.mem_cons_of_mem _ (this ▸ listMin_mem hxs)

theorem listMin_eq_none : ∀ {s : List Nat}, listMin s = none → s = []
  | [], _ => rfl
  | x :: xs, h => by
      cases hxs : listMin xs with
      | none => simp [listMin, hxs] at h
      | some m2 => simp [listMin, hxs] at h

theorem setPop_mem {s : List Nat} {i : Nat} {rest : List Nat}
    (h : setPop s = some (i, rest)) :
    i ∈ s ∧ ∀ j ∈ rest, j ∈ s ∧ j ≠ i := by
  unfold setPop at h
  cases hm : listMin s with
  | none => rw [hm] at h; exact absurd h (by simp)
  | some m =>
      rw [hm] at h
      have hm2 : m = i ∧ s.filter (fun x => decide (x ≠ m)) = rest := by
        constructor
        · exact congrArg Prod.fst (Option.some.inj h)
        · exact congrArg Prod.snd (Option.some.inj h)
      refine ⟨hm2.1 ▸ listMin_mem hm, ?_⟩
      intro j hj
      rw [← hm2.2] at hj
      have := List.mem_filter.1 hj
      exact ⟨this.1, hm2.1 ▸ of_decide_eq_true this.2⟩

theorem setPop_isSome_of_ne_nil {s : List Nat} (h : s ≠ []) :
    (setPop s).isSome := by
  unfold setPop
  cases hm : listMin s with
  | none => exact absurd (listMin_eq_none hm) h
  | some m => simp

theorem setAdd_mem {s : List Nat} {i j : Nat} :
    j ∈ setAdd s i ↔ j = i ∨ j ∈ s := by
  unfold setAdd
  by_cases hi : i ∈ s
  · rw [if_pos hi]
    constructor
    · exact Or.inr
    · rintro (rfl | hj)
      · exact hi
      · exact hj
  · rw [if_neg hi]
    exact List.mem_cons

/- ==================================================================
   Claims about the readMany retry policy and COVUnsubscribe
   ================================================================== -/

/-- C5: a `readMany` error completion whose original request targeted
exactly one object of type `device` is retried as a `readMany` for that
same object with the full nine-entry device property list, which is not
the reduced property list. -/
theorem C5_single_device_error_retries_with_device_list (o : ObjId)
    (props : List PropId) (errorSource : Addr) (hdev : o.1 = "device") :
    on_ReadMultipleResult_error [(o, props)] errorSource =
      some (ReadPropertyMultiple [o] devicePropertyList errorSource)
    ∧ devicePropertyList ≠ reducedPropertyList := by
  constructor
  · simp [on_ReadMultipleResult_error, hdev]
  · decide

theorem C5_single_device_error_retries_with_device_list_witness :
    on_ReadMultipleResult_error [(("device", 100), ["presentValue"])] 9 =
      some (ReadPropertyMultiple [("device", 100)] devicePropertyList 9)
    ∧ devicePropertyList ≠ reducedPropertyList :=
  C5_single_device_error_retries_with_device_list ("device", 100)
    ["presentValue"] 9 rfl

/-- C6: a `readMany` error completion whose original request was not a
single-device-object request is retried over exactly the same object set
with the reduced property list, which is not the device property list. -/
theorem C6_multi_object_error_retries_with_reduced_list
    (s : ObjId × List PropId) (rest : List (ObjId × List PropId))
    (errorSource : Addr) (h : s.1.1 = "device" → rest ≠ []) :
    on_ReadMultipleResult_error (s :: rest) errorSource =
      some (ReadPropertyMultiple ((s :: rest).map (·.1))
            reducedPropertyList errorSource)
    ∧ reducedPropertyList ≠ devicePropertyList := by
  have hc : ¬ (s.1.1 = "device" ∧ rest = []) := by
    intro hx; exact h hx.1 hx.2
  constructor
  · simp only [on_ReadMultipleResult_error]
    rw [if_neg hc]
  · decide

theorem C6_multi_object_error_retries_with_reduced_list_witness :
    on_ReadMultipleResult_error
        [(("analogInput", 1), devicePropertyList),
         (("analogInput", 2), devicePropertyList)] 9 =
      some (ReadPropertyMultiple [("analogInput", 1), ("analogInput", 2)]
            reducedPropertyList 9)
    ∧ reducedPropertyList ≠ devicePropertyList :=
  C6_multi_object_error_retries_with_reduced_list
    (("analogInput", 1), devicePropertyList)
    [(("analogInput", 2), devicePropertyList)] 9 (by decide)

/-- C1 counterexample: a failing stage-2 retry — here the reduced-list
`readMany` over two analog inputs that the error handler itself would
have issued — is not terminal: feeding its specs back into the error
handler issues a further retry request, contradicting the claim that no
further retry is ever issued for that batch. -/
theorem C1_counterexample_stage2_failure_retries_again :
    (on_ReadMultipleResult_error
        [(("analogInput", 1), reducedPropertyList),
         (("analogInput", 2), reducedPropertyList)] 7).isSome = true := by
  decide

/-- C1 (amended): the retry shape is bounded to two stages only in the
sense that the error handler is a fixpoint on stage-2 requests: the
failure of a reduced-property-list retry issues another retry that is the
very same reduced-list `readMany` over the same object set (never a
device-shaped request and never a grown object set) — it is not
surfaced as terminal, so under persistent errors the handler retries
indefinitely. -/
theorem C1_stage2_retry_is_fixpoint_not_terminal (o : ObjId)
    (os : List ObjId) (errorSource : Addr) (h : o.1 = "device" → os ≠ []) :
    on_ReadMultipleResult_error
        ((o :: os).map (fun x => (x, reducedPropertyList))) errorSource =
      some (ReadPropertyMultiple (o :: os) reducedPropertyList errorSource) := by
  have hc : ¬ ((o, reducedPropertyList).1.1 = "device"
      ∧ List.map (fun x => (x, reducedPropertyList)) os = []) := by
    intro hx
    exact h hx.1 (List.map_eq_nil_iff.1 hx.2)
  simp only [List.map_cons, on_ReadMultipleResult_error]
  rw [if_neg hc]
  simp [ReadPropertyMultiple, List.map_map]

theorem C1_stage2_retry_is_fixpoint_not_terminal_witness :
    on_ReadMultipleResult_error
        ([("analogInput", 1), ("analogInput", 2)].map
          (fun x => (x, reducedPropertyList))) 7 =
      some (ReadPropertyMultiple [("analogInput", 1), ("analogInput", 2)]
            reducedPropertyList 7) :=
  C1_stage2_retry_is_fixpoint_not_terminal ("analogInput", 1)
    [("analogInput", 2)] 7 (by decide)

/-- C2: `COVUnsubscribe` dispatches no request at all — in particular no
`SubscribeCOVRequest` with lifetime 1.  The body's call to the undefined
method `self.unsubscribe_id` raises `AttributeError`, which the bare
`except` swallows before the lifetime is set and the request sent; the
docstring ("Send a SubscribeCOVRequest to designated address with time 1
to stop notifications") is therefore contradicted by the body. -/
theorem C2_unsubscribe_dispatches_no_request (st : HandlerState)
    (objectID : ObjId) (confirmationType : Bool) (address : Addr) :
    (COVUnsubscribe st objectID confirmationType address).2 = [] := rfl

/- ==================================================================
   Discovery (C4) and registry merge (C7, C10)
   ================================================================== -/

/-- C4: an I-Am announcement for an unknown device stores the device with
the announcing address and an empty object map and issues exactly one
`readMany` for the device object with the device property list, while an
announcement for a known device changes nothing and issues nothing. -/
theorem C4_iam_announcement_discovery (st : HandlerState) (pduSource : Addr)
    (d : ObjId) :
    (lookupAssoc st.devices d = none →
       lookupAssoc (do_IAmRequest st pduSource d).1.devices d =
         some { address := pduSource, deviceIdentifier := d, objects := [] }
       ∧ (do_IAmRequest st pduSource d).2 =
           [ReadPropertyMultiple [d] devicePropertyList pduSource])
    ∧ (∀ dev, lookupAssoc st.devices d = some dev →
         do_IAmRequest st pduSource d = (st, [])) := by
  constructor
  · intro h
    simp only [do_IAmRequest, h]
    refine ⟨?_, by trivial⟩
    rw [lookupAssoc_append_none h]
    simp [lookupAssoc]
  · intro dev hdev
    simp [do_IAmRequest, hdev]

theorem C4_iam_announcement_discovery_witness :
    (lookupAssoc (do_IAmRequest emptyHandlerState 3 ("device", 5)).1.devices
        ("device", 5) =
      some { address := 3, deviceIdentifier := ("device", 5), objects := [] }
     ∧ (do_IAmRequest emptyHandlerState 3 ("device", 5)).2 =
         [ReadPropertyMultiple [("device", 5)] devicePropertyList 3])
    ∧ do_IAmRequest knownDeviceState 3 ("device", 5) = (knownDeviceState, []) :=
  ⟨(C4_iam_announcement_discovery emptyHandlerState 3 ("device", 5)).1 rfl,
   (C4_iam_announcement_discovery knownDeviceState 3 ("device", 5)).2
     { address := 3, deviceIdentifier := ("device", 5), objects := [] }
     (by decide)⟩

/-- When the device is present, `update_object` with a one-entry map
rewrites the device entry so that the target object's map is the old map
(or the empty map when the object did not exist) with that entry
assigned. -/
theorem update_object_single_shape (st : HandlerState) (o d : ObjId)
    (x : PropId) (y : Value) (dev : Device)
    (hdev : lookupAssoc st.devices d = some dev) :
    lookupAssoc (update_object st o d [(x, y)]).devices d =
      some { dev with
               objects := setAssoc dev.objects o
                 (setAssoc ((lookupAssoc dev.objects o).getD []) x y) } := by
  simp only [update_object, hdev]
  cases hobj : lookupAssoc dev.objects o with
  | none =>
      simp only [hobj, Option.getD_none]
      rw [setAssoc_of_none hobj]
      exact lookupAssoc_setAssoc_self _ _ _
  | some m =>
      simp only [hobj, Option.getD_some, dictUpdate, List.foldl_cons,
        List.foldl_nil]
      exact lookupAssoc_setAssoc_self _ _ _

/-- `propAt` through a known device reads the object map (empty when the
object is absent). -/
theorem propAt_of_device (st : HandlerState) (d o : ObjId) (dev : Device)
    (hdev : lookupAssoc st.devices d = some dev) (r : PropId) :
    propAt st d o r = lookupAssoc ((lookupAssoc dev.objects o).getD []) r := by
  simp only [propAt, hdev]
  cases hobj : lookupAssoc dev.objects o with
  | none => simp [hobj, lookupAssoc]
  | some m => simp [hobj]

/-- C7: merging `{p: v}` then `{q: w}` into an object of a known device
leaves `q ↦ w` (last write wins also when `p = q`), leaves `p ↦ v` when
`p ≠ q`, and leaves every other key exactly as it was before. -/
theorem C7_merge_twice_last_write_wins (st : HandlerState) (d o : ObjId)
    (p q : PropId) (v w : Value) (dev : Device)
    (hdev : lookupAssoc st.devices d = some dev) :
    propAt (update_object (update_object st o d [(p, v)]) o d [(q, w)]) d o q
      = some w
    ∧ (p ≠ q →
        propAt (update_object (update_object st o d [(p, v)]) o d [(q, w)]) d o p
          = some v)
    ∧ (∀ r, r ≠ p → r ≠ q →
        propAt (update_object (update_object st o d [(p, v)]) o d [(q, w)]) d o r
          = propAt st d o r) := by
  have h1 := update_object_single_shape st o d p v dev hdev
  have h2 := update_object_single_shape (update_object st o d [(p, v)]) o d q w
    _ h1
  have hobj1 : lookupAssoc
      ({ dev with
           objects := setAssoc dev.objects o
             (setAssoc ((lookupAssoc dev.objects o).getD []) p v) } :
        Device).objects o =
      some (setAssoc ((lookupAssoc dev.objects o).getD []) p v) :=
    lookupAssoc_setAssoc_self _ _ _
  rw [hobj1] at h2
  have hread := fun r => propAt_of_device
    (update_object (update_object st o d [(p, v)]) o d [(q, w)]) d o _ h2 r
  have hobj2 : ∀ r, propAt
      (update_object (update_object st o d [(p, v)]) o d [(q, w)]) d o r =
      lookupAssoc (setAssoc (setAssoc ((lookupAssoc dev.objects o).getD []) p v)
        q w) r := by
    intro r
    rw [hread r]
    simp only [lookupAssoc_setAssoc_self, Option.getD_some]
  refine ⟨?_, ?_, ?_⟩
  · rw [hobj2 q]
    exact lookupAssoc_setAssoc_self _ _ _
  · intro hpq
    rw [hobj2 p, lookupAssoc_setAssoc_ne hpq]
    exact lookupAssoc_setAssoc_self _ _ _
  · intro r hrp hrq
    rw [hobj2 r, lookupAssoc_setAssoc_ne hrq, lookupAssoc_setAssoc_ne hrp]
    exact (propAt_of_device st d o dev hdev r).symm

theorem exceptOk_iff {ε α : Type} (e : Except ε α) :
    exceptOk e = true ↔ ∃ a, e = .ok a := by
  cases e <;> simp [exceptOk]

/-- The COV decode loop completes exactly when every listed property has
a known datatype. -/
theorem covDecodeValues_isOk (gd : DatatypeEnv) (objType : String) :
    ∀ (lvs : List PropertyValue) (acc : PropMap),
      exceptOk (covDecodeValues gd objType lvs acc) = true ↔
        ∀ lv ∈ lvs, (gd objType lv.propertyIdentifier).isSome
  | [], acc => by simp [covDecodeValues, exceptOk]
  | lv :: rest, acc => by
      cases hdt : gd objType lv.propertyIdentifier with
      | none => simp [covDecodeValues, hdt, exceptOk]
      | some dt =>
          simp [covDecodeValues, hdt, covDecodeValues_isOk gd objType rest _]

theorem covDecodeValues_ok_exists (gd : DatatypeEnv) (objType : String)
    (lvs : List PropertyValue) (acc : PropMap)
    (h : ∀ lv ∈ lvs, (gd objType lv.propertyIdentifier).isSome) :
    ∃ pm, covDecodeValues gd objType lvs acc = .ok pm :=
  (exceptOk_iff _).1 ((covDecodeValues_isOk gd objType lvs acc).2 h)

/-- The readMany per-property decode loop never raises. -/
theorem readMultipleDecodeResults_isOk (gd : DatatypeEnv) (objType : String) :
    ∀ (es : List ReadAccessResultElement) (acc : PropMap),
      ∃ pm, readMultipleDecodeResults gd objType es acc = .ok pm
  | [], acc => ⟨acc, rfl⟩
  | e :: rest, acc => by
      cases hdt : gd objType e.propertyIdentifier with
      | none =>
          simp only [readMultipleDecodeResults, hdt]
          exact readMultipleDecodeResults_isOk gd objType rest acc
      | some dt =>
          cases hae : e.readResult.propertyAccessError with
          | some err =>
              simp only [readMultipleDecodeResults, hdt, hae]
              exact readMultipleDecodeResults_isOk gd objType rest acc
          | none =>
              simp only [readMultipleDecodeResults, hdt, hae]
              exact readMultipleDecodeResults_isOk gd objType rest _

/-- Unknown-datatype properties are skipped by the readMany decode:
when every property in the list is undecodable the accumulator comes back
untouched. -/
theorem readMultipleDecodeResults_skips_unknown (gd : DatatypeEnv)
    (objType : String) :
    ∀ (es : List ReadAccessResultElement) (acc : PropMap),
      (∀ e ∈ es, gd objType e.propertyIdentifier = none) →
      readMultipleDecodeResults gd objType es acc = .ok acc
  | [], acc, _ => rfl
  | e :: rest, acc, h => by
      have hdt : gd objType e.propertyIdentifier = none :=
        h e (List.mem_cons_self e rest)
      simp only [readMultipleDecodeResults, hdt]
      exact readMultipleDecodeResults_skips_unknown gd objType rest acc
        (fun x hx => h x (List.mem_cons_of_mem e hx))

/-- The whole `return_value_read_multiple` never raises. -/
theorem return_value_read_multiple_isOk (gd : DatatypeEnv) :
    ∀ (results : List ReadAccessResult) (acc : List (ObjId × PropMap)),
      exceptOk (return_value_read_multiple gd results acc) = true
  | [], _ => rfl
  | o :: rest, acc => by
      obtain ⟨pm, hpm⟩ := readMultipleDecodeResults_isOk gd
        o.objectIdentifier.1 o.listOfResults []
      simp only [return_value_read_multiple, hpm]
      exact return_value_read_multiple_isOk gd rest _

/-- C8 counterexample: a confirmed COV notification with one property
whose datatype lookup yields nothing does not complete — the handler
reaches `issubclass(None, Array)` and raises, instead of skipping the
property as the claim requires. -/
theorem C8_counterexample_cov_unknown_datatype_raises :
    exceptOk (do_ConfirmedCOVNotificationRequest gdUnknown emptyHandlerState
      sampleNotification) = false := rfl

/-- C8 (amended): the skip-on-unknown-datatype behaviour holds only in
the readMany completion decode, which never raises and leaves the
accumulated map untouched on undecodable properties; the readOne decode
raises `Invalid datatype` (the caller swallows it); both COV notification
handlers raise out of the handler whenever any listed property's datatype
lookup yields nothing. -/
theorem C8_amended_unknown_datatype_only_skipped_in_readMany
    (gd : DatatypeEnv) :
    (∀ (results : List ReadAccessResult) (acc : List (ObjId × PropMap)),
        exceptOk (return_value_read_multiple gd results acc) = true)
    ∧ (∀ (objType : String) (es : List ReadAccessResultElement) (acc : PropMap),
        (∀ e ∈ es, gd objType e.propertyIdentifier = none) →
        readMultipleDecodeResults gd objType es acc = .ok acc)
    ∧ (∀ r : ReadPropertyACK,
        gd r.objectIdentifier.1 r.propertyIdentifier = none →
        return_value_read gd r = .error "Invalid datatype")
    ∧ (∀ (st : HandlerState) (apdu : COVNotification),
        (∃ lv ∈ apdu.listOfValues,
          gd apdu.monitoredObjectIdentifier.1 lv.propertyIdentifier = none) →
        exceptOk (do_ConfirmedCOVNotificationRequest gd st apdu) = false
        ∧ exceptOk (do_UnconfirmedCOVNotificationRequest gd st apdu) = false) := by
  refine ⟨return_value_read_multiple_isOk gd,
    readMultipleDecodeResults_skips_unknown gd, ?_, ?_⟩
  · intro r hr
    simp [return_value_read, hr]
  · intro st apdu hex
    have hdecode : exceptOk (covDecodeValues gd apdu.monitoredObjectIdentifier.1
        apdu.listOfValues []) = false := by
      rcases hb : exceptOk (covDecodeValues gd apdu.monitoredObjectIdentifier.1
          apdu.listOfValues []) with _ | _
      · rfl
      · obtain ⟨lv, hlv, hnone⟩ := hex
        have := (covDecodeValues_isOk gd apdu.monitoredObjectIdentifier.1
          apdu.listOfValues []).1 hb lv hlv
        rw [hnone] at this
        simp at this
    cases hcd : covDecodeValues gd apdu.monitoredObjectIdentifier.1
        apdu.listOfValues [] with
    | error e =>
        constructor
        · simp [do_ConfirmedCOVNotificationRequest, hcd, exceptOk]
        · simp [do_UnconfirmedCOVNotificationRequest, hcd, exceptOk]
    | ok pm =>
        rw [hcd] at hdecode
        simp [exceptOk] at hdecode

theorem C8_amended_unknown_datatype_only_skipped_in_readMany_witness :
    exceptOk (return_value_read_multiple gdUnknown
        [{ objectIdentifier := ("analogInput", 1),
           listOfResults := [{ propertyIdentifier := "presentValue",
                               propertyArrayIndex := none,
                               readResult := { propertyAccessError := none,
                                               propertyValue := 3 } }] }] [])
      = true
    ∧ readMultipleDecodeResults gdUnknown "analogInput"
        [{ propertyIdentifier := "presentValue", propertyArrayIndex := none,
           readResult := { propertyAccessError := none,
                           propertyValue := 3 } }] [] = .ok []
    ∧ return_value_read gdUnknown
        { objectIdentifier := ("analogInput", 1),
          propertyIdentifier := "presentValue", propertyArrayIndex := none,
          propertyValue := 3 } = .error "Invalid datatype"
    ∧ exceptOk (do_ConfirmedCOVNotificationRequest gdUnknown emptyHandlerState
        sampleNotification) = false
    ∧ exceptOk (do_UnconfirmedCOVNotificationRequest gdUnknown
        emptyHandlerState sampleNotification) = false := by
  have h := C8_amended_unknown_datatype_only_skipped_in_readMany gdUnknown
  have h4 := h.2.2.2 emptyHandlerState sampleNotification (by decide)
  exact ⟨h.1 _ _, h.2.1 "analogInput" _ [] (by decide), h.2.2.1 _ rfl,
    h4.1, h4.2⟩

/-- C10: `update_object` for a device identifier that is not in the
registry is a silent total no-op — the state (devices, allocator tables
and `updateEvent` flag alike) is returned unchanged — and consequently a
confirmed COV notification whose initiating device is unknown decodes,
merges nothing, and still completes with the default acknowledgement. -/
theorem C10_unknown_device_merge_is_silent_noop (st : HandlerState)
    (o d : ObjId) (m : PropMap) (hd : lookupAssoc st.devices d = none) :
    update_object st o d m = st
    ∧ (∀ (gd : DatatypeEnv) (mon : ObjId) (lvs : List PropertyValue),
        (∀ lv ∈ lvs, (gd mon.1 lv.propertyIdentifier).isSome) →
        do_ConfirmedCOVNotificationRequest gd st
            { monitoredObjectIdentifier := mon,
              initiatingDeviceIdentifier := d, listOfValues := lvs } =
          .ok (st, rsvpResponse)) := by
  constructor
  · simp [update_object, hd]
  · intro gd mon lvs hall
    obtain ⟨pm, hpm⟩ := covDecodeValues_ok_exists gd mon.1 lvs [] hall
    simp only [do_ConfirmedCOVNotificationRequest, hpm]
    simp [update_object, hd]

theorem C10_unknown_device_merge_is_silent_noop_witness :
    update_object emptyHandlerState ("analogInput", 1) ("device", 2)
        [("presentValue", Value.cast 0 (.namedT "Real"))] = emptyHandlerState
    ∧ do_ConfirmedCOVNotificationRequest gdAllReal emptyHandlerState
        sampleNotification = .ok (emptyHandlerState, rsvpResponse) := by
  have h := C10_unknown_device_merge_is_silent_noop emptyHandlerState
    ("analogInput", 1) ("device", 2)
    [("presentValue", Value.cast 0 (.namedT "Real"))] (by decide)
  exact ⟨h.1, h.2 gdAllReal ("analogInput", 1)
    sampleNotification.listOfValues (by decide)⟩

theorem C7_merge_twice_last_write_wins_witness :
    propAt (update_object (update_object oneObjectState ("analogInput", 2)
        ("device", 1) [("presentValue", Value.cast 7 (.namedT "Real"))])
        ("analogInput", 2) ("device", 1)
        [("reliability", Value.cast 0 (.namedT "Reliability"))])
      ("device", 1) ("analogInput", 2) "reliability"
      = some (Value.cast 0 (.namedT "Reliability"))
    ∧ propAt (update_object (update_object oneObjectState ("analogInput", 2)
        ("device", 1) [("presentValue", Value.cast 7 (.namedT "Real"))])
        ("analogInput", 2) ("device", 1)
        [("reliability", Value.cast 0 (.namedT "Reliability"))])
      ("device", 1) ("analogInput", 2) "presentValue"
      = some (Value.cast 7 (.namedT "Real"))
    ∧ propAt (update_object (update_object oneObjectState ("analogInput", 2)
        ("device", 1) [("presentValue", Value.cast 7 (.namedT "Real"))])
        ("analogInput", 2) ("device", 1)
        [("reliability", Value.cast 0 (.namedT "Reliability"))])
      ("device", 1) ("analogInput", 2) "statusFlags"
      = propAt oneObjectState ("device", 1) ("analogInput", 2) "statusFlags" := by
  have h := C7_merge_twice_last_write_wins oneObjectState ("device", 1)
    ("analogInput", 2) "presentValue" "reliability"
    (Value.cast 7 (.namedT "Real")) (Value.cast 0 (.namedT "Reliability"))
    { address := 4, deviceIdentifier := ("device", 1),
      objects := [(("analogInput", 2),
                   [("statusFlags", Value.cast 5 (.namedT "StatusFlags"))])] }
    (by decide)
  exact ⟨h.1, h.2.1 (by decide), h.2.2 "statusFlags" (by decide) (by decide)⟩

/- ==================================================================
   Allocator claims (C3, C9)
   ================================================================== -/

theorem allocInv_init {K : Type} : AllocInv (AllocState.init : AllocState K) := by
  simp [AllocInv, AllocState.init]

theorem assign_id_preserves {K : Type} [DecidableEq K] {st : AllocState K}
    (h : AllocInv st) (k : K) :
    AllocInv (assign_id st k).2 ∧ 1 ≤ (assign_id st k).1 := by
  obtain ⟨hnext, hassigned, havail, hfresh, hinj⟩ := h
  cases hlk : lookupAssoc st.object_to_id k with
  | some i =>
      simp only [assign_id, hlk]
      exact ⟨⟨hnext, hassigned, havail, hfresh, hinj⟩,
        (hassigned _ (lookupAssoc_mem hlk)).1⟩
  | none =>
      cases hs : setPop st.available_ids with
      | some pr =>
          obtain ⟨i, rest⟩ := pr
          obtain ⟨hi_mem, hrest⟩ := setPop_mem hs
          simp only [assign_id, hlk, hs]
          refine ⟨⟨hnext, ?_, ?_, ?_, ?_⟩, (havail i hi_mem).1⟩
          · intro p hp
            rcases List.mem_cons.1 hp with rfl | hp2
            · exact havail i hi_mem
            · exact hassigned p hp2
          · intro j hj
            exact havail j (hrest j hj).1
          · intro j hj p hp
            rcases List.mem_cons.1 hp with rfl | hp2
            · exact fun he => (hrest j hj).2 he.symm
            · exact hfresh j (hrest j hj).1 p hp2
          · intro p hp q hq
            rcases List.mem_cons.1 hp with rfl | hp2 <;>
              rcases List.mem_cons.1 hq with rfl | hq2
            · intro _; rfl
            · intro he; exact absurd he.symm (hfresh i hi_mem q hq2)
            · intro he; exact absurd he (hfresh i hi_mem p hp2)
            · exact hinj p hp2 q hq2
      | none =>
          simp only [assign_id, hlk, hs]
          refine ⟨⟨Nat.le_succ_of_le hnext, ?_, ?_, ?_, ?_⟩, hnext⟩
          · intro p hp
            rcases List.mem_cons.1 hp with rfl | hp2
            · exact ⟨hnext, Nat.lt_succ_self _⟩
            · obtain ⟨h1, h2⟩ := hassigned p hp2
              exact ⟨h1, Nat.lt_succ_of_lt h2⟩
          · intro j hj
            obtain ⟨h1, h2⟩ := havail j hj
            exact ⟨h1, Nat.lt_succ_of_lt h2⟩
          · intro j hj p hp
            rcases List.mem_cons.1 hp with rfl | hp2
            · exact Nat.ne_of_gt (havail j hj).2
            · exact hfresh j hj p hp2
          · intro p hp q hq
            rcases List.mem_cons.1 hp with rfl | hp2 <;>
              rcases List.mem_cons.1 hq with rfl | hq2
            · intro _; rfl
            · intro he
              exact absurd (hassigned q hq2).2 (by rw [← he]; exact Nat.lt_irrefl _)
            · intro he
              exact absurd (hassigned p hp2).2 (by rw [he]; exact Nat.lt_irrefl _)
            · exact hinj p hp2 q hq2

theorem unassign_id_preserves {K : Type} [DecidableEq K] {st : AllocState K}
    (h : AllocInv st) (k : K) : AllocInv (unassign_id st k) := by
  obtain ⟨hnext, hassigned, havail, hfresh, hinj⟩ := h
  cases hlk : lookupAssoc st.object_to_id k with
  | none =>
      simp only [unassign_id, hlk]
      exact ⟨hnext, hassigned, havail, hfresh, hinj⟩
  | some i =>
      have hk_mem : (k, i) ∈ st.object_to_id := lookupAssoc_mem hlk
      simp only [unassign_id, hlk]
      refine ⟨hnext, ?_, ?_, ?_, ?_⟩
      · intro p hp
        exact hassigned p (List.mem_of_mem_filter hp)
      · intro j hj
        rcases setAdd_mem.1 hj with rfl | hj2
        · exact hassigned _ hk_mem
        · exact havail j hj2
      · intro j hj p hp
        have hp2 : p ∈ List.filter (fun kv : K × Nat => decide (kv.1 ≠ k))
            st.object_to_id := hp
        have hp_mem := (List.mem_filter.1 hp2).1
        have hp_ne : p.1 ≠ k := by
          have hd := (List.mem_filter.1 hp2).2
          simpa using hd
        rcases setAdd_mem.1 hj with rfl | hj2
        · intro he
          exact hp_ne (hinj p hp_mem (k, j) hk_mem he)
        · exact hfresh j hj2 p hp_mem
      · intro p hp q hq
        exact hinj p (List.mem_of_mem_filter hp) q (List.mem_of_mem_filter hq)

theorem allocFold_preserves {K : Type} [DecidableEq K] :
    ∀ (ops : List (AllocOp K)) (st : AllocState K) (acc : List Nat),
      AllocInv st → (∀ i ∈ acc, 1 ≤ i) →
      AllocInv (ops.foldl allocStepIds (st, acc)).1
      ∧ ∀ i ∈ (ops.foldl allocStepIds (st, acc)).2, 1 ≤ i
  | [], st, acc, hinv, hacc => ⟨hinv, hacc⟩
  | op :: ops, st, acc, hinv, hacc => by
      simp only [List.foldl_cons]
      cases op with
      | assign k =>
          have h := assign_id_preserves hinv k
          refine allocFold_preserves ops (assign_id st k).2
            (acc ++ [(assign_id st k).1]) h.1 ?_
          intro i hi
          rcases List.mem_append.1 hi with h1 | h2
          · exact hacc i h1
          · rw [List.mem_singleton.1 h2]
            exact h.2
      | unassign k =>
          exact allocFold_preserves ops (unassign_id st k) acc
            (unassign_id_preserves hinv k) hacc

/-- C3: over every finite sequence of `assign_id` / `unassign_id` calls
from the initial allocator state, no two simultaneously-live keys hold
the same id, and every id that `assign_id` ever returned is at least 1. -/
theorem C3_allocator_ids_unique_and_positive {K : Type} [DecidableEq K]
    (ops : List (AllocOp K)) :
    allocNoSharedIds (allocRunIds ops).1 = true
    ∧ allocIdsPos (allocRunIds ops).2 = true := by
  simp only [allocRunIds]
  obtain ⟨hinv, hids⟩ := allocFold_preserves ops AllocState.init []
    allocInv_init (by intro i hi; simp at hi)
  obtain ⟨-, -, -, -, hinj⟩ := hinv
  constructor
  · unfold allocNoSharedIds
    rw [List.all_eq_true]
    intro p hp
    rw [List.all_eq_true]
    intro q hq
    by_cases he : p.2 = q.2
    · simp [hinj p hp q hq he]
    · simp [he]
  · unfold allocIdsPos
    rw [List.all_eq_true]
    intro i hi
    exact decide_eq_true (hids i hi)

/-- C9 counterexample: after `reclaimTwiceOps` the pool holds ids 1 and 2
with 2 the most recently reclaimed (`unassign_id 20` ran last), yet a
fresh `assign_id` returns 1, not 2 — the Python pool is an unordered
`set`, so reuse is not LIFO. -/
theorem C9_counterexample_pool_reuse_not_LIFO :
    (allocRunIds reclaimTwiceOps).1.available_ids = [2, 1]
    ∧ (assign_id (allocRunIds reclaimTwiceOps).1 30).1 = 1
    ∧ (assign_id (allocRunIds reclaimTwiceOps).1 30).1 ≠ 2 := by
  decide

/-- C9 (amended): when the reclaim pool is non-empty, `assign_id` for a
fresh key returns an id taken from the pool and leaves the monotonic
counter untouched; which pool element is returned is the unordered
Python set's choice (modelled as the minimum, CPython's behaviour for
small integers), not necessarily the most recently reclaimed id. -/
theorem C9_fresh_assign_draws_from_pool {K : Type} [DecidableEq K]
    (st : AllocState K) (k : K)
    (hfresh : lookupAssoc st.object_to_id k = none)
    (hpool : st.available_ids ≠ []) :
    (assign_id st k).1 ∈ st.available_ids
    ∧ (assign_id st k).2.next_id = st.next_id := by
  have hsp := setPop_isSome_of_ne_nil hpool
  cases hs : setPop st.available_ids with
  | none => rw [hs] at hsp; simp at hsp
  | some pr =>
      obtain ⟨i, rest⟩ := pr
      have hmem := (setPop_mem hs).1
      simp only [assign_id, hfresh, hs]
      exact ⟨hmem, by trivial⟩

theorem C9_fresh_assign_draws_from_pool_witness :
    (assign_id (allocRunIds reclaimTwiceOps).1 30).1 ∈
      (allocRunIds reclaimTwiceOps).1.available_ids
    ∧ (assign_id (allocRunIds reclaimTwiceOps).1 30).2.next_id =
        (allocRunIds reclaimTwiceOps).1.next_id :=
  C9_fresh_assign_draws_from_pool (allocRunIds reclaimTwiceOps).1 30
    (by decide) (by decide)

end BACnet
